import Mathlib

/-!
Shallow embedding of the netunicorn connector template
(`src/netunicorn/contrib/connectors/connector_name.py` and its FastAPI
entry point `src/netunicorn/contrib/connectors/connector_name/__main__.py`).

Python data types from the external `netunicorn.base` library (Node, node
pools, Deployment, environment definitions, `returns.result.Result`) are
modelled per their use in the source and the data-model section of the
documentation. Python dictionaries are modelled as association lists with
insertion-order-preserving overwrite (the semantics of CPython dicts), and
Python exceptions as an `Except PyError` result: a raised exception means
the function returns `Except.error` instead of a value.
-/

set_option autoImplicit false
set_option linter.unusedVariables false

/-- Python exceptions that the embedded code can raise. -/
inductive PyError where
  | typeError (msg : String)
  | attributeError (msg : String)
  | assertionError
  | fileNotFoundError (path : String)
  | httpException (status_code : Nat) (detail : String)
  deriving DecidableEq, Repr

/-- `netunicorn.base.architecture.Architecture` (only the member used by the source). -/
inductive Architecture where
  | LINUX_AMD64
  | LINUX_ARM64
  deriving DecidableEq, Repr

/-- `netunicorn.base.nodes.Node`: a named compute target with numeric properties. -/
structure Node where
  name : String
  properties : List (String × Int)
  architecture : Architecture
  deriving DecidableEq, Repr

/-- `netunicorn.base.nodes.Nodes`: either a countable (materialized) pool or an
uncountable pool given by template prototypes. -/
inductive Nodes where
  | countable (nodes : List Node)
  | uncountable (node_template : List Node)
  deriving DecidableEq, Repr

/-- Whether a pool is a `CountableNodePool`. -/
def Nodes.isCountable : Nodes → Bool
  | .countable _ => true
  | .uncountable _ => false

/-- `RuntimeContext`: port mappings and user-declared environment variables,
both ordered mappings (Python dicts). -/
structure RuntimeContext where
  ports_mapping : List (Int × Int)
  environment_variables : List (String × String)
  deriving DecidableEq, Repr

/-- `netunicorn.base.environment_definitions`: the `DockerImage` / `ShellExecution`
variants, each carrying a runtime context. `ShellExecution` has NO `image`
attribute: Python attribute access `.image` on it raises `AttributeError`. -/
inductive EnvironmentDefinition where
  | dockerImage (image : String) (runtime_context : RuntimeContext)
  | shellExecution (commands : List String) (runtime_context : RuntimeContext)
  deriving DecidableEq, Repr

/-- `isinstance(e, DockerImage)`. -/
def EnvironmentDefinition.isDockerImage : EnvironmentDefinition → Bool
  | .dockerImage _ _ => true
  | .shellExecution _ _ => false

/-- The runtime context carried by either variant. -/
def EnvironmentDefinition.runtime_context : EnvironmentDefinition → RuntimeContext
  | .dockerImage _ rc => rc
  | .shellExecution _ rc => rc

/-- `netunicorn.base.deployment.Deployment`: one environment definition bound to
one node, with an executor identity and the externally-set `prepared` flag. -/
structure Deployment where
  executor_id : String
  node : Node
  environment_definition : EnvironmentDefinition
  prepared : Bool
  deriving DecidableEq, Repr

/-- `returns.result.Result[Optional[str], str]`: `Success` with an optional
payload, or `Failure` with a reason string. -/
inductive PyResult where
  | success (value : Option String)
  | failure (reason : String)
  deriving DecidableEq, Repr

/-- `netunicorn.director.base.connectors.types.StopExecutorRequest`:
`{executor_id, node_name}`. -/
structure StopExecutorRequest where
  executor_id : String
  node_name : String
  deriving DecidableEq, Repr

/-- A Python dict keyed by executor id, as an insertion-ordered association list. -/
abbrev PyDict (α : Type) : Type := List (String × α)

/-- Python dict assignment `d[k] = v`: overwrite in place if the key exists,
otherwise append at the end (CPython insertion-order semantics). -/
def dictInsert {α : Type} : PyDict α → String → α → PyDict α
  | [], k, v => [(k, v)]
  | (k₀, v₀) :: rest, k, v =>
      if k₀ = k then (k₀, v) :: rest else (k₀, v₀) :: dictInsert rest k v

/-- The keys of a Python dict, in insertion order. -/
def dictKeys {α : Type} (d : PyDict α) : List String := d.map Prod.fst

/-- Python `repr` of a `dict[int, int]`, as produced by an f-string
(`f"{ports_mapping}"`). -/
def pyReprPorts (ps : List (Int × Int)) : String :=
  "\x7b" ++ String.intercalate ", " (ps.map fun p => toString p.1 ++ ": " ++ toString p.2) ++ "\x7d"

/-- Does the character list `l` start with `pat`? -/
def startsWithChars : List Char → List Char → Bool
  | _, [] => true
  | [], _ :: _ => false
  | a :: as, b :: bs => a == b && startsWithChars as bs

/-- Does the character list `l` contain `pat` as a contiguous run? -/
def containsChars : List Char → List Char → Bool
  | [], pat => pat.isEmpty
  | a :: rest, pat => startsWithChars (a :: rest) pat || containsChars rest pat

/-- Substring test on strings (used to state that a built command line does or
does not mention an environment-variable name). -/
def strContains (s pat : String) : Bool :=
  containsChars s.toList pat.toList

/-- An untyped Python value, as produced by `yaml.safe_load` / `json.loads`. -/
inductive PyVal where
  | str (s : String)
  | int (n : Int)
  | bool (b : Bool)
  | pyNone
  | list (xs : List PyVal)
  | dict (entries : List (PyVal × PyVal))

/-- `json.loads(v)`: JSON parsing requires a string argument; applied to any
other Python value it raises `TypeError`. The actual parse of a string is the
external `json` library, passed in as `jsonParseString`. -/
def jsonLoads (jsonParseString : String → Except PyError PyVal) : PyVal → Except PyError PyVal
  | .str s => jsonParseString s
  | _ => .error (.typeError "the JSON object must be str, bytes or bytearray")

namespace ConnectorTemplate

/-- A fully constructed `ConnectorTemplate` instance (the fields `__init__`
stores when it succeeds). `configuration` ends up as the value produced by
`json.loads` applied to the value produced by `yaml.safe_load`. -/
structure Connector where
  connector_name : String
  configuration : PyVal
  netunicorn_gateway : String

/-- `ConnectorTemplate.__init__` (connector_name.py lines 26-50).
The Python code runs `open(self.configuration)` (a `TypeError` when
`configuration` is `None`, `FileNotFoundError` when the path does not exist,
modelled through `fileSystem`), then `self.configuration = yaml.safe_load(f)`
(the external YAML library, passed in as `yamlSafeLoad`), then
`self.configuration = json.loads(self.configuration)` applied to the
already-parsed YAML value. -/
def init (yamlSafeLoad : String → PyVal)
    (jsonParseString : String → Except PyError PyVal)
    (fileSystem : String → Option String)
    (connector_name : String) (configuration : Option String)
    (netunicorn_gateway : String) : Except PyError Connector :=
  match configuration with
  | none => .error (.typeError "expected str, bytes or os.PathLike object, not NoneType")
  | some path =>
      match fileSystem path with
      | none => .error (.fileNotFoundError path)
      | some contents =>
          (jsonLoads jsonParseString (yamlSafeLoad contents)).map
            (fun cfg => ⟨connector_name, cfg, netunicorn_gateway⟩)

/-- `ConnectorTemplate.health` (connector_name.py lines 57-60): the body is
`pass`, so the call returns Python `None` instead of a `(bool, str)` tuple. -/
def health : Option (Bool × String) := none

/-- `ConnectorTemplate.get_nodes` (connector_name.py lines 66-90): returns a
`CountableNodePool` of three fixed nodes. (The second `return` with an
`UncountableNodePool`, lines 94-107, is unreachable dead code.) -/
def get_nodes (username : String)
    (authentication_context : Option (List (String × String))) : Nodes :=
  .countable ((List.range 3).map fun i =>
    { name := "node-" ++ toString i
      properties := [("cpu", (4 : Int)), ("memory", 16), ("gpu", 0)]
      architecture := .LINUX_AMD64 })

/-- `ConnectorTemplate.deploy` (connector_name.py lines 109-141): the loop only
prints (isinstance-guarded attribute accesses, so it cannot raise), then the
dict comprehension maps every deployment's `executor_id` to
`Success("success message")`; later duplicates overwrite earlier ones. -/
def deploy (username : String) (experiment_id : String)
    (deployments : List Deployment)
    (deployment_context : Option (List (String × String)))
    (authentication_context : Option (List (String × String))) : PyDict PyResult :=
  deployments.foldl
    (fun d dep => dictInsert d dep.executor_id (.success (some "success message"))) []

/-- The implicit concatenation of the five adjacent string literals in the
`print` call of `execute` (connector_name.py lines 174-181). Because the
literal `" -e "` is adjacent to the f-strings before it, the whole docker-run
prefix — including the three mandatory NETUNICORN_* variables — becomes the
SEPARATOR passed to `str.join` over the user environment variables. -/
def dockerRunSeparator (netunicorn_gateway executor_id experiment_id portsRepr : String) : String :=
  "docker run -d -p " ++ portsRepr ++
  " -e NETUNICORN_GATEWAY_ENDPOINT=" ++ netunicorn_gateway ++
  " -e NETUNICORN_EXECUTOR_ID=" ++ executor_id ++
  " -e NETUNICORN_EXPERIMENT_ID=" ++ experiment_id ++
  "  -e "

/-- The first argument of the `print` call in `execute`:
`S.join(f"{x}={y}" for x, y in environment_variables.items())` where `S` is
`dockerRunSeparator` (empty iterable gives `""`, a single item gives the bare
item, the separator only appears between two items). -/
def dockerRunArg1 (netunicorn_gateway executor_id experiment_id portsRepr : String)
    (envVars : List (String × String)) : String :=
  String.intercalate
    (dockerRunSeparator netunicorn_gateway executor_id experiment_id portsRepr)
    (envVars.map fun p => p.1 ++ "=" ++ p.2)

/-- The full line printed by `execute` for a launched deployment: `print`
joins its two arguments with a single space; the second argument is
`f" --name {executor_id} {image}"`. -/
def dockerRunLine (netunicorn_gateway executor_id experiment_id portsRepr : String)
    (envVars : List (String × String)) (image : String) : String :=
  dockerRunArg1 netunicorn_gateway executor_id experiment_id portsRepr envVars ++
  " " ++ " --name " ++ executor_id ++ " " ++ image

/-- The per-deployment loop of `ConnectorTemplate.execute`
(connector_name.py lines 165-186), accumulating the `result` dict and the
printed docker-run lines. Per iteration, in source order:
`if not deployment.prepared:` assign `Failure("skipped")` (no `continue`);
`if not isinstance(..., DockerImage):` assign `Failure("not a docker image")`
(no `continue`); `assert deployment.node.name == "local"` (raises
`AssertionError` on mismatch); the print arguments are evaluated — for a
`ShellExecution` definition the f-string access `.image` raises
`AttributeError` — and finally `result[executor_id] = Success(None)`,
overwriting any `Failure` assigned above. -/
def executeLoop (netunicorn_gateway experiment_id : String) :
    List Deployment → PyDict PyResult → List String →
    Except PyError (PyDict PyResult × List String)
  | [], result, log => .ok (result, log)
  | dep :: rest, result, log =>
      let result :=
        if dep.prepared then result
        else dictInsert result dep.executor_id (.failure "skipped")
      let result :=
        if dep.environment_definition.isDockerImage then result
        else dictInsert result dep.executor_id (.failure "not a docker image")
      if dep.node.name = "local" then
        match dep.environment_definition with
        | .shellExecution _ _ =>
            .error (.attributeError "ShellExecution object has no attribute image")
        | .dockerImage image rc =>
            executeLoop netunicorn_gateway experiment_id rest
              (dictInsert result dep.executor_id (.success none))
              (log ++ [dockerRunLine netunicorn_gateway dep.executor_id experiment_id
                (pyReprPorts rc.ports_mapping) rc.environment_variables image])
      else .error .assertionError

/-- `ConnectorTemplate.execute` (connector_name.py lines 143-186). The first
component of a successful result is the returned dict, the second the
sequence of printed docker-run command lines (one per launched deployment). -/
def execute (netunicorn_gateway : String) (username : String) (experiment_id : String)
    (deployments : List Deployment)
    (execution_context : Option (List (String × String)))
    (authentication_context : Option (List (String × String))) :
    Except PyError (PyDict PyResult × List String) :=
  executeLoop netunicorn_gateway experiment_id deployments [] []

/-- The per-request loop of `stop_executors` (connector_name.py lines 203-209):
`assert request["node_name"] == "local"` raises `AssertionError` on any other
node name; otherwise `result[request["executor_id"]] = Success(None)`. -/
def stopLoop : List StopExecutorRequest → PyDict PyResult → Except PyError (PyDict PyResult)
  | [], result => .ok result
  | req :: rest, result =>
      if req.node_name = "local" then
        stopLoop rest (dictInsert result req.executor_id (.success none))
      else .error .assertionError

/-- `ConnectorTemplate.stop_executors` (connector_name.py lines 188-209):
before the loop it runs `print(cancellation_context.get("reason"))`, which
raises `AttributeError` when `cancellation_context` is `None`. -/
def stop_executors (username : String) (requests_list : List StopExecutorRequest)
    (cancellation_context : Option (List (String × String)))
    (authentication_context : Option (List (String × String))) :
    Except PyError (PyDict PyResult) :=
  match cancellation_context with
  | none => .error (.attributeError "NoneType object has no attribute get")
  | some _ => stopLoop requests_list []

/-- `ConnectorTemplate.cleanup` (connector_name.py lines 211-226): per
deployment it prints `docker rm {executor_id}` (always fine) and then
`docker rmi {deployment.environment_definition.image}` — an `AttributeError`
for a `ShellExecution` definition, which has no `image` attribute. -/
def cleanup (experiment_id : String) : List Deployment → Except PyError Unit
  | [] => .ok ()
  | dep :: rest =>
      match dep.environment_definition with
      | .dockerImage _ _ => cleanup experiment_id rest
      | .shellExecution _ _ =>
          .error (.attributeError "ShellExecution object has no attribute image")

end ConnectorTemplate

/-- The module-level connector construction of the FastAPI entry point
(`__main__.py` lines 44-49): `ConnectorTemplate(connector_name="name",
configuration=None, netunicorn_gateway="", logger=None)`. -/
def mainConnector (yamlSafeLoad : String → PyVal)
    (jsonParseString : String → Except PyError PyVal)
    (fileSystem : String → Option String) : Except PyError ConnectorTemplate.Connector :=
  ConnectorTemplate.init yamlSafeLoad jsonParseString fileSystem "name" none ""

/-- The gateway health response model (`__main__.py` lines 52-53). -/
structure HealthResponse where
  status : String
  deriving DecidableEq, Repr

/-- The `/health` endpoint handler (`__main__.py` lines 87-96): it unpacks
`healthy, text = await connector.health()` — a `TypeError` when `health`
returned `None` — and otherwise reports an unhealthy backend as an HTTP 500. -/
def gatewayHealthEndpoint : Except PyError HealthResponse :=
  match ConnectorTemplate.health with
  | none => .error (.typeError "cannot unpack non-iterable NoneType object")
  | some (healthy, text) =>
      if healthy then .ok ⟨text⟩ else .error (.httpException 500 text)

/-! ## Concrete fixtures used to evaluate the embedded operations -/

/-- The node named `"local"`, the only node name the template's assertions accept. -/
def localNode : Node :=
  { name := "local", properties := [("cpu", 4), ("memory", 16), ("gpu", 0)],
    architecture := .LINUX_AMD64 }

/-- A runtime context with no port mappings and no user environment variables. -/
def emptyRuntimeContext : RuntimeContext := ⟨[], []⟩

/-- Executor `e1`: a `DockerImage` deployment on node `local` with `prepared = false`. -/
def unpreparedDockerDeployment : Deployment :=
  ⟨"e1", localNode, .dockerImage "img" emptyRuntimeContext, false⟩

/-- Executor `e2`: a prepared `DockerImage` deployment on node `local` with no
user-declared environment variables. -/
def preparedDockerDeployment : Deployment :=
  ⟨"e2", localNode, .dockerImage "img" emptyRuntimeContext, true⟩

/-- Executor `e3`: a prepared `ShellExecution` deployment on node `local`. -/
def preparedShellDeployment : Deployment :=
  ⟨"e3", localNode, .shellExecution ["echo hi"] emptyRuntimeContext, true⟩

/-- Executor `e4`: a `ShellExecution` deployment handed to `cleanup`. -/
def shellCleanupDeployment : Deployment :=
  ⟨"e4", localNode, .shellExecution ["apt install x"] emptyRuntimeContext, false⟩

/-! ## Claims -/

/-- C1: the spec requires every batch operation, on every input list, to return
a mapping whose key set is exactly the input executor ids. `deploy` satisfies
this (third conjunct), but `execute` raises `AttributeError` on a prepared
`ShellExecution` deployment and `stop_executors` raises `AssertionError` on a
request naming any node other than `"local"` — in both cases no mapping is
returned at all, so the key-set contract is violated. -/
theorem c1_execute_and_stop_return_no_mapping :
    ConnectorTemplate.execute "gw" "u" "exp1" [preparedShellDeployment] none none
      = .error (.attributeError "ShellExecution object has no attribute image")
  ∧ ConnectorTemplate.stop_executors "u" [⟨"e9", "nodeZ"⟩] (some []) none
      = .error .assertionError
  ∧ dictKeys (ConnectorTemplate.deploy "u" "exp1" [preparedShellDeployment] none none)
      = ["e3"] :=
  ⟨rfl, rfl, rfl⟩

/-- C2: the spec says `execute` yields `Failure("skipped")` for a deployment
with `prepared = false`. The loop does assign `Failure("skipped")` but has no
`continue`, falls through, and unconditionally overwrites the entry with
`Success(None)`: the unprepared Docker deployment `e1` ends up `Success`. -/
theorem c2_unprepared_deployment_ends_as_success :
    ConnectorTemplate.execute "gw" "u" "exp1" [unpreparedDockerDeployment] none none
      = .ok ([("e1", PyResult.success none)], ["  --name e1 img"]) :=
  rfl

/-- C3: the spec says one failing item yields a `Failure` for its key only and
leaves sibling results intact. In `stop_executors`, a single request alone
yields `Success` for `e1`, but adding one request with a wrong node name makes
the whole call raise `AssertionError`, discarding `e1`'s result. -/
theorem c3_one_bad_item_aborts_the_batch :
    ConnectorTemplate.stop_executors "u" [⟨"e1", "local"⟩] (some []) none
      = .ok [("e1", PyResult.success none)]
  ∧ ConnectorTemplate.stop_executors "u" [⟨"e1", "local"⟩, ⟨"e2", "nodeB"⟩] (some []) none
      = .error .assertionError :=
  ⟨rfl, rfl⟩

/-- C4: the spec says a `stop_executors` request whose `node_name` does not
match the executor's node yields a per-item `Failure` and never throws; the
code instead runs `assert request["node_name"] == "local"`, so a mismatched
request raises `AssertionError` and aborts the call. -/
theorem c4_stop_node_mismatch_raises :
    ConnectorTemplate.stop_executors "u" [⟨"e7", "nodeX"⟩] (some [("reason", "done")]) none
      = .error .assertionError :=
  rfl

/-- C5: the spec says `cleanup` never raises, whatever the deployments' state or
environment-definition type, and is safe to call twice. For `DockerImage`
deployments it indeed only prints (second and third conjuncts: two identical
consecutive calls both return normally), but for a `ShellExecution` deployment
the unconditional `deployment.environment_definition.image` access raises
`AttributeError`. -/
theorem c5_cleanup_raises_on_shell_execution :
    ConnectorTemplate.cleanup "exp1" [shellCleanupDeployment]
      = .error (.attributeError "ShellExecution object has no attribute image")
  ∧ ConnectorTemplate.cleanup "exp1" [unpreparedDockerDeployment] = .ok ()
  ∧ ConnectorTemplate.cleanup "exp1" [unpreparedDockerDeployment] = .ok () :=
  ⟨rfl, rfl, rfl⟩

/-- C6: the spec says `health` returns a `(bool, str)` pair and reports an
unreachable backend as `false` rather than raising. The method body is `pass`,
so the call returns `None`, and the gateway's `/health` handler, which unpacks
`healthy, text = await connector.health()`, raises `TypeError`. -/
theorem c6_health_returns_no_pair :
    ConnectorTemplate.health = none
  ∧ gatewayHealthEndpoint
      = .error (.typeError "cannot unpack non-iterable NoneType object") :=
  ⟨rfl, rfl⟩

/-- C7: the spec says every launched deployment receives the three mandatory
NETUNICORN_* environment variables. Because the adjacent string literals in the
`print` call concatenate with the trailing `" -e "` literal, the whole
docker-run prefix becomes the separator of the `join` over user environment
variables: with zero user variables the launch line for prepared deployment
`e2` is just `"  --name e2 img"`, which names none of the three mandatory
variables; the separator (and the variables) only reappear once at least two
user variables exist (last conjunct). -/
theorem c7_mandatory_env_vars_absent :
    ConnectorTemplate.execute "gw" "u" "exp1" [preparedDockerDeployment] none none
      = .ok ([("e2", PyResult.success none)],
             [ConnectorTemplate.dockerRunLine "gw" "e2" "exp1" (pyReprPorts []) [] "img"])
  ∧ ConnectorTemplate.dockerRunLine "gw" "e2" "exp1" (pyReprPorts []) [] "img"
      = "  --name e2 img"
  ∧ strContains (ConnectorTemplate.dockerRunLine "gw" "e2" "exp1" (pyReprPorts []) [] "img")
      "NETUNICORN_GATEWAY_ENDPOINT" = false
  ∧ strContains (ConnectorTemplate.dockerRunLine "gw" "e2" "exp1" (pyReprPorts []) [] "img")
      "NETUNICORN_EXECUTOR_ID" = false
  ∧ strContains (ConnectorTemplate.dockerRunLine "gw" "e2" "exp1" (pyReprPorts []) [] "img")
      "NETUNICORN_EXPERIMENT_ID" = false
  ∧ strContains
      (ConnectorTemplate.dockerRunLine "gw" "e2" "exp1" (pyReprPorts [])
        [("A", "1"), ("B", "2")] "img")
      "NETUNICORN_GATEWAY_ENDPOINT" = true :=
  ⟨rfl, rfl, by decide, by decide, by decide, by decide⟩

/-- C8: two calls to `get_nodes` with the same username and the same
authentication context return equal pools (the function constructs the same
`CountableNodePool` of three fixed nodes on every call), and the pool is
countable. -/
theorem c8_get_nodes_deterministic (u₁ u₂ : String)
    (a₁ a₂ : Option (List (String × String))) (hu : u₁ = u₂) (ha : a₁ = a₂) :
    ConnectorTemplate.get_nodes u₁ a₁ = ConnectorTemplate.get_nodes u₂ a₂
  ∧ (ConnectorTemplate.get_nodes u₁ a₁).isCountable = true := by
  subst hu ha
  exact ⟨rfl, rfl⟩

/-- Witness for C8 at username `"alice"` with no authentication context. -/
theorem c8_get_nodes_deterministic_witness :
    ConnectorTemplate.get_nodes "alice" none = ConnectorTemplate.get_nodes "alice" none
  ∧ (ConnectorTemplate.get_nodes "alice" none).isCountable = true :=
  c8_get_nodes_deterministic "alice" "alice" none none rfl rfl

/-- C9: when `cancellation_context` is `None`, `stop_executors` runs
`cancellation_context.get("reason")` before touching the request list, raising
`AttributeError` for every username, every request list (including the empty
one) and every authentication context — it never returns a result mapping on
such calls. -/
theorem c9_stop_executors_none_context_raises (username : String)
    (requests_list : List StopExecutorRequest)
    (authentication_context : Option (List (String × String))) :
    ConnectorTemplate.stop_executors username requests_list none authentication_context
      = .error (.attributeError "NoneType object has no attribute get") :=
  rfl

/-- C10: the constructor unconditionally opens its `configuration` argument as
a file, YAML-parses the contents, and then applies `json.loads` to the
already-parsed value (second conjunct); with `configuration = None` the
`open(None)` call raises `TypeError` for every environment (first conjunct),
and the gateway entry point constructs the connector exactly that way at
module import, so it raises before any protocol operation can run (third
conjunct). -/
theorem c10_constructor_requires_file_configuration :
    (∀ (yl : String → PyVal) (jp : String → Except PyError PyVal)
       (fs : String → Option String) (name gw : String),
       ConnectorTemplate.init yl jp fs name none gw
         = .error (.typeError "expected str, bytes or os.PathLike object, not NoneType"))
  ∧ (∀ (yl : String → PyVal) (jp : String → Except PyError PyVal)
       (fs : String → Option String) (name path contents gw : String),
       fs path = some contents →
       ConnectorTemplate.init yl jp fs name (some path) gw
         = (jsonLoads jp (yl contents)).map
             (fun cfg => ⟨name, cfg, gw⟩))
  ∧ (∀ (yl : String → PyVal) (jp : String → Except PyError PyVal)
       (fs : String → Option String),
       mainConnector yl jp fs
         = .error (.typeError "expected str, bytes or os.PathLike object, not NoneType")) := by
  refine ⟨fun yl jp fs name gw => rfl, ?_, fun yl jp fs => rfl⟩
  intro yl jp fs name path contents gw h
  simp only [ConnectorTemplate.init, h]

/-- Witness for C10: a concrete file system mapping the path `"p"` to contents
`"body"`, a YAML loader returning the contents as a string, and a JSON parser
echoing its input, on which the constructor succeeds as the theorem's second
conjunct describes. -/
theorem c10_constructor_requires_file_configuration_witness :
    ConnectorTemplate.init PyVal.str (fun s => .ok (.str s)) (fun _ => some "body")
      "n" (some "p") "g" = .ok ⟨"n", PyVal.str "body", "g"⟩ := by
  have h := c10_constructor_requires_file_configuration.2.1 PyVal.str
    (fun s => .ok (.str s)) (fun _ => some "body") "n" "p" "body" "g" rfl
  simpa [jsonLoads, Except.map] using h
